import Mathlib

/-!
Verification of the ArduinoMusicLab song-selection and playback program.

The development shallowly embeds the program's data and operations:

* the note codes `c`..`C` and the song catalog (`songData0`.. `songData11`,
  tempos and titles) are transcribed from the PROGMEM tables;
* `noteToMotorShieldChannel`, `playNote`, `sendMotorShieldCommand`'s payload,
  `processSongData`, `pause` and the `while` loop of `playSelectedSong` are
  embedded as pure functions; serial output becomes an explicit trace of
  `Command` values, the busy-wait in `pause` becomes an explicit tick count,
  and button clicks polled by `btnRot.tick()` become a `List Bool` stream
  consumed one entry per tick;
* the rotary-encoder interrupt handlers `PinA`/`PinB` and the bounded
  counter updates `rotaryUp`/`rotaryDown` act on an explicit `RotaryState`.

Machine integers are modelled with `Nat`/`Int` plus explicit wrapping where
the C types matter: the `unsigned long` arithmetic of `pause` is reduced
modulo 2^32 and the result is stored into a 16-bit signed `int`.
-/

namespace MusicLab

/-- Note codes from the `#define`s: `c` 0x80 (low C) through `C` 0x8C (high C). -/
def c : Nat := 0x80

/-- Note code for D (0x82). -/
def d : Nat := 0x82

/-- Note code for E (0x84). -/
def e : Nat := 0x84

/-- Note code for F (0x85). -/
def f : Nat := 0x85

/-- Note code for G (0x87). -/
def g : Nat := 0x87

/-- Note code for A (0x89). -/
def a : Nat := 0x89

/-- Note code for B (0x8B). -/
def b : Nat := 0x8B

/-- Note code for high C (0x8C). -/
def C : Nat := 0x8C

/-- The address of the slave Arduino (`const byte slaveAddr = 0`). -/
def slaveAddr : Nat := 0

/-- Number of songs in the catalog (`#define SONG_COUNT 12`). -/
def SONG_COUNT : Nat := 12

/-- Upper clamp for the rotary counter (`const int rotaryMax = SONG_COUNT-1`). -/
def rotaryMax : Int := SONG_COUNT - 1

/-- The list of the 8 defined note codes, in channel order c, d, e, f, g, a, b, C. -/
def noteCodes : List Nat := [c, d, e, f, g, a, b, C]

/-- Semantic classification of one byte of song data (spec §3 "Sequence Event"):
a byte decodes to playing a note, pausing for a duration, or end of song. -/
inductive SequenceEvent where
  | note (code : Nat)
  | pause (duration : Nat)
  | endOfSong
  deriving DecidableEq, Repr

/-- The byte classification performed by the branch structure of
`processSongData`: `dataVal == 0` ends the song, `dataVal > C` ends the song,
`dataVal >= c` plays a note, and the remaining bytes (0x01–0x7F) pause. -/
def decode (dataVal : Nat) : SequenceEvent :=
  if dataVal = 0 then .endOfSong
  else if C < dataVal then .endOfSong
  else if c ≤ dataVal then .note dataVal
  else .pause dataVal

/-- Embeds `noteToMotorShieldChannel`: the `switch` mapping note codes to
motor-shield channels 0–7, defaulting to the sentinel 0x7F. -/
def noteToMotorShieldChannel (note : Nat) : Nat :=
  if note = c then 0
  else if note = d then 1
  else if note = e then 2
  else if note = f then 3
  else if note = g then 4
  else if note = a then 5
  else if note = b then 6
  else if note = C then 7
  else 0x7F

/-- A serial command `<aabb>` sent by `sendMotorShieldCommand`: `boardNum` is
the slave address field aa and `pdata` the channel-bitmask field bb, both
`uint8_t`. -/
structure Command where
  boardNum : Nat
  pdata : Nat
  deriving DecidableEq, Repr

/-- Embeds `playNote` (with `PLAY_DEBUG_MODE = 0`): look up the channel and,
when `ch` is between 0 and 7, send `<slaveAddr, 1 << ch>`; the returned
`Option` is the command transmitted, `none` when nothing is sent.  The
`% 256` records the conversion of `1 << ch` to the `uint8_t` parameter. -/
def playNote (note : Nat) : Option Command :=
  let ch := noteToMotorShieldChannel note
  if ch ≤ 7 then some ⟨slaveAddr, 1 <<< ch % 256⟩ else none

/-- Wrap a `Nat` into a 16-bit signed `int`, the AVR `int` type that
`delayTicks` is stored into. -/
def toInt16 (v : Nat) : Int :=
  if v % 65536 < 32768 then ((v % 65536 : Nat) : Int)
  else ((v % 65536 : Nat) : Int) - 65536

/-- The delay computation of `pause`:
`int delayTicks = (unsigned long)num16ths * 120 * 125 / tempo / 20;`.
`num16ths` is a `uint8_t`; the products are taken in 32-bit `unsigned long`
arithmetic and the quotient is stored into a 16-bit signed `int`. -/
def pauseDelayTicks (tempo : Nat) (num16ths : Nat) : Int :=
  toInt16 (num16ths % 256 * 120 % 4294967296 * 125 % 4294967296 / tempo / 20 % 4294967296)

/-- Number of iterations of the `for (i = 0; i < delayTicks; i++)` loop in
`pause`: zero when the stored `int` is non-positive. -/
def pauseIterations (tempo : Nat) (num16ths : Nat) : Nat :=
  (pauseDelayTicks tempo num16ths).toNat

/-- Pop the next pending click event from the click stream; an empty stream
means `btnRot.tick()` observes no click. -/
def takeClick : List Bool → Bool × List Bool
  | [] => (false, [])
  | cl :: rest => (cl, rest)

/-- Embeds the wait loop of `pause`: each iteration calls `btnRot.tick()`
(modelled as consuming one click event, a click toggling `songPlaying` via
`rotaryClick`), waits one 20 ms tick, then returns early if `songPlaying`
was cleared.  Returns the remaining click stream, the final `songPlaying`
flag, and the number of ticks executed. -/
def pauseM : List Bool → Bool → Nat → List Bool × Bool × Nat
  | clicks, playing, 0 => (clicks, playing, 0)
  | clicks, playing, n + 1 =>
    let tc := takeClick clicks
    let playing' := if tc.1 then !playing else playing
    if playing' = false then (tc.2, playing', 1)
    else
      let r := pauseM tc.2 playing' n
      (r.1, r.2.1, r.2.2 + 1)

/-- Result of one `processSongData` call: the returned continue/stop byte,
the command transmitted (if any), the remaining click stream, the updated
`songPlaying` flag, and the ticks spent pausing. -/
structure StepResult where
  keepGoing : Bool
  emitted : Option Command
  clicks : List Bool
  songPlaying : Bool
  ticks : Nat
  deriving DecidableEq, Repr

/-- Embeds `processSongData`: return 0 on the terminator byte, on a byte
above the highest note code, or when `songPlaying` has been cleared;
otherwise play a note (`dataVal >= c`) or pause (`dataVal < c`) and
return 1. -/
def processSongData (tempo : Nat) (dataVal : Nat) (clicks : List Bool)
    (playing : Bool) : StepResult :=
  if dataVal = 0 then ⟨false, none, clicks, playing, 0⟩
  else if C < dataVal then ⟨false, none, clicks, playing, 0⟩
  else if playing = false then ⟨false, none, clicks, playing, 0⟩
  else if c ≤ dataVal then ⟨true, playNote dataVal, clicks, playing, 0⟩
  else
    let p := pauseM clicks playing (pauseIterations tempo dataVal)
    ⟨true, none, p.1, p.2.1, p.2.2⟩

/-- Embeds the loop `while (processSongData(pgm_read_byte(songDataPtr++)));`
of `playSelectedSong` over an explicit byte list.  Returns `none` when the
loop runs off the end of the sequence (in C it would read past the array),
otherwise the list of transmitted commands in order and the total tick
count. -/
def playLoop (tempo : Nat) : List Nat → List Bool → Bool → Option (List Command × Nat)
  | [], _, _ => none
  | dataVal :: rest, clicks, playing =>
    let r := processSongData tempo dataVal clicks playing
    if r.keepGoing then
      (playLoop tempo rest r.clicks r.songPlaying).map
        (fun q => (r.emitted.toList ++ q.1, r.ticks + q.2))
    else some ([], 0)

/-- The two LCD banner lines: `printSelectSong` vs `printSongPlaying`. -/
inductive DisplayMode where
  | selecting
  | playing
  deriving DecidableEq, Repr

/-- Observable outcome of one `playSelectedSong` call. -/
structure PlayResult where
  commands : List Command
  ticks : Nat
  display : DisplayMode
  songPlaying : Bool
  rotaryDisabled : Bool
  deriving DecidableEq, Repr

/-- Embeds `playSelectedSong`: set `rotaryDisabled`, show the playing
banner, run the decode loop, then clear `songPlaying`, restore the
selection banner and re-enable the rotary encoder. -/
def playSelectedSong (tempo : Nat) (seq : List Nat) (clicks : List Bool) :
    Option PlayResult :=
  (playLoop tempo seq clicks true).map
    (fun q => ⟨q.1, q.2, .selecting, false, false⟩)

/-- The expected transmit trace of a sequence: one command per valid note
byte of the prefix before the first end-of-song byte, in sequence order. -/
def noteCommands (seq : List Nat) : List Command :=
  (seq.takeWhile (fun x => decide (x ≠ 0 ∧ ¬ C < x))).filterMap
    (fun x => if c ≤ x then playNote x else none)

/-- State touched by the rotary-encoder interrupt handlers. -/
structure RotaryState where
  rotaryCount : Int
  rotaryChanged : Bool
  rotaryDisabled : Bool
  aFlag : Bool
  bFlag : Bool
  deriving DecidableEq, Repr

/-- Embeds `rotaryUp`: increment `rotaryCount` and clamp it to `rotaryMax`,
setting the changed flag. -/
def rotaryUp (st : RotaryState) : RotaryState :=
  let n := st.rotaryCount + 1
  { st with rotaryCount := if rotaryMax < n then rotaryMax else n,
            rotaryChanged := true }

/-- Embeds `rotaryDown`: decrement `rotaryCount` and clamp it to 0, setting
the changed flag. -/
def rotaryDown (st : RotaryState) : RotaryState :=
  let n := st.rotaryCount - 1
  { st with rotaryCount := if n < 0 then 0 else n,
            rotaryChanged := true }

/-- Embeds the interrupt handler `PinA`: bail out while `rotaryDisabled`,
otherwise on reading `B00001100` with `aFlag` set perform `rotaryUp` and
clear both flags, and on reading `B00000100` set `bFlag`. -/
def PinA (reading : Nat) (st : RotaryState) : RotaryState :=
  if st.rotaryDisabled then st
  else if reading = 0xC ∧ st.aFlag then
    { rotaryUp st with aFlag := false, bFlag := false }
  else if reading = 0x4 then { st with bFlag := true }
  else st

/-- Embeds the interrupt handler `PinB`: bail out while `rotaryDisabled`,
otherwise on reading `B00001100` with `bFlag` set perform `rotaryDown` and
clear both flags, and on reading `B00001000` set `aFlag`. -/
def PinB (reading : Nat) (st : RotaryState) : RotaryState :=
  if st.rotaryDisabled then st
  else if reading = 0xC ∧ st.bFlag then
    { rotaryDown st with aFlag := false, bFlag := false }
  else if reading = 0x8 then { st with aFlag := true }
  else st

/-- Song catalog entry: title string, encoded byte sequence, tempo in BPM. -/
structure Song where
  title : String
  data : List Nat
  tempo : Nat
  deriving DecidableEq, Repr

/-- Title of song 0. -/
def songTitle0 : String := "Scale"

/-- Encoded data of song 0 (`songData0`). -/
def songData0 : List Nat := [c,4,d,4,e,4,f,4,g,4,a,4,b,4,C,4,0]

/-- Tempo of song 0 (`#define songTempo0 150`). -/
def songTempo0 : Nat := 150

/-- Title of song 1. -/
def songTitle1 : String := "Chords"

/-- Encoded data of song 1 (`songData1`). -/
def songData1 : List Nat := [c,e,g,C,4,c,f,a,C,4,c,e,g,C,4,d,f,g,b,4,c,e,g,C,4,0]

/-- Tempo of song 1. -/
def songTempo1 : Nat := 120

/-- Title of song 2. -/
def songTitle2 : String := "Do Re Mi"

/-- Encoded data of song 2 (`songData2`). -/
def songData2 : List Nat := [c,6,d,2,e,6,c,2,e,4,c,4,e,8,d,6,e,2,f,2,f,2,e,2,d,2,f,16,
  e,6,f,2,g,6,e,2,g,4,e,4,g,8,f,6,g,2,a,2,a,2,g,2,f,2,a,16,0]

/-- Tempo of song 2. -/
def songTempo2 : Nat := 150

/-- Title of song 3. -/
def songTitle3 : String := "Grieg Morning"

/-- Encoded data of song 3 (`songData3`). -/
def songData3 : List Nat := [
  g,4,e,4,d,4,c,4,d,4,e,4,g,4,e,4,d,4,c,4,d,2,e,2,d,2,e,2,g,4,e,4,
  g,4,a,4,e,4,a,4,g,4,e,4,d,4,c,12,g,4,e,4,d,4,c,4,d,4,e,4,g,4,e,4,
  d,4,c,4,d,2,e,2,d,2,e,2,g,4,e,4,g,4,a,4,e,4,a,4,b,4,g,4,b,4,C,0]

/-- Tempo of song 3. -/
def songTempo3 : Nat := 150

/-- Title of song 4. -/
def songTitle4 : String := "Old MacDonald"

/-- Encoded data of song 4 (`songData4`). -/
def songData4 : List Nat := [C,4,C,4,C,4,g,4,a,4,a,4,g,8,e,4,e,4,d,4,d,4,c,12,
  g,4,C,4,C,4,C,4,g,4,a,4,a,4,g,8,e,4,e,4,d,4,d,4,c,12,g,2,g,2,C,4,C,4,C,4,g,2,g,2,C,4,C,4,C,8,
  C,2,C,2,C,4,C,2,C,2,C,4,C,2,C,2,C,2,C,2,C,4,C,4,C,4,C,4,C,4,g,4,a,4,a,4,g,8,e,4,e,4,d,4,d,4,c,12,0]

/-- Tempo of song 4. -/
def songTempo4 : Nat := 200

/-- Title of song 5. -/
def songTitle5 : String := "Itsy Bitsy Spidr"

/-- Encoded data of song 5 (`songData5`). -/
def songData5 : List Nat := [g,2,c,3,c,1,c,3,d,1,e,4,e,3,e,1,d,3,c,1,d,3,e,1,c,8,
  e,4,e,3,f,1,g,4,g,4,f,3,e,1,f,3,g,1,e,8,c,4,c,3,d,1,e,4,e,4,d,3,c,1,d,3,e,1,c,4,
  g,3,g,1,c,3,c,1,c,3,d,1,e,4,e,3,e,1,d,3,c,1,d,3,e,1,c,8,0]

/-- Tempo of song 5. -/
def songTempo5 : Nat := 120

/-- Title of song 6. -/
def songTitle6 : String := "Ode to Joy"

/-- Encoded data of song 6 (`songData6`). -/
def songData6 : List Nat := [e,4,e,4,f,4,g,4,g,4,f,4,e,4,d,4,c,4,c,4,d,4,e,4,e,6,d,2,d,8,
  e,4,e,4,f,4,g,4,g,4,f,4,e,4,d,4,c,4,c,4,d,4,e,4,d,6,c,2,c,8,
  d,4,d,4,e,4,c,4,d,4,e,2,f,2,e,4,c,4,d,4,e,2,f,2,e,4,d,4,c,4,d,4,g,8,
  e,4,e,4,f,4,g,4,g,4,f,4,e,4,d,4,c,4,c,4,d,4,e,4,d,6,c,2,c,8,0]

/-- Tempo of song 6. -/
def songTempo6 : Nat := 160

/-- Title of song 7. -/
def songTitle7 : String := "Twinkle Star"

/-- Encoded data of song 7 (`songData7`). -/
def songData7 : List Nat := [c,4,c,4,g,4,g,4,a,4,a,4,g,8,f,4,f,4,e,4,e,4,d,4,d,4,c,8,
  g,4,g,4,f,4,f,4,e,4,e,4,d,8,g,4,g,4,f,4,f,4,e,4,e,4,d,8,
  c,4,c,4,g,4,g,4,a,4,a,4,g,8,f,4,f,4,e,4,e,4,d,4,d,4,c,8,0]

/-- Tempo of song 7. -/
def songTempo7 : Nat := 150

/-- Title of song 8. -/
def songTitle8 : String := "Water Music"

/-- Encoded data of song 8 (`songData8`). -/
def songData8 : List Nat := [
  8,c,8,d,8,e,4,c,8,d,4,e,4,c,4,d,4,g,8,d,4,e,4,d,2,c,2,d,4,g,8,d,
  4,e,4,d,2,c,2,d,12,e,g,4,e,g,4,e,g,4,e,g,4,f,2,e,2,f,4,d,f,4,d,f,
  4,d,f,4,d,f,4,e,2,d,2,e,4,e,g,4,e,g,4,e,g,4,e,g,4,f,2,e,2,f,4,d,
  f,4,d,f,4,d,f,4,f,12,g,4,e,c,4,d,4,e,c,4,f,4,d,12,c,4,c,12,e,g,4,e,
  g,4,e,g,4,f,d,4,g,2,f,2,e,c,4,g,e,4,f,d,4,e,c,4,e,c,4,d,2,c,2,d,
  4,e,g,4,e,g,4,e,g,4,f,d,4,g,2,f,2,e,c,4,g,e,4,f,d,4,e,c,4,e,c,4,
  d,2,c,2,d,4,e,g,4,e,g,4,e,g,4,e,g,4,f,2,e,2,f,4,d,f,4,d,f,4,d,f,
  4,d,f,12,g,4,e,c,4,d,4,e,c,4,f,4,d,12,c,4,c,0]

/-- Tempo of song 8. -/
def songTempo8 : Nat := 200

/-- Title of song 9. -/
def songTitle9 : String := "Vivaldi Spring"

/-- Encoded data of song 9 (`songData9`). -/
def songData9 : List Nat := [
  12,c,4,c,e,4,c,e,4,c,e,4,d,2,c,2,e,g,12,g,2,f,2,c,e,4,c,e,4,c,e,4,
  d,2,c,2,e,g,12,g,2,f,2,c,e,4,f,2,g,2,d,f,4,c,e,4,d,12,c,4,c,e,4,c,
  e,4,c,e,4,d,2,c,2,e,g,12,g,2,f,2,c,e,4,c,e,4,c,e,4,d,2,c,2,e,g,12,
  g,2,f,2,c,e,4,f,2,g,2,d,f,4,c,e,4,d,12,c,4,e,g,4,f,2,e,2,f,4,g,4,
  f,a,4,e,g,8,c,4,e,g,4,f,2,e,2,f,4,g,4,f,a,4,e,g,8,c,4,f,a,4,e,g,
  8,f,4,e,4,d,2,c,2,d,8,c,12,c,4,e,g,4,f,2,e,2,f,4,g,4,f,a,4,e,g,8,
  c,4,e,g,4,f,2,e,2,f,4,g,4,f,a,4,e,g,8,c,4,f,a,4,e,g,8,f,4,e,4,d,
  2,c,2,d,8,c,0]

/-- Tempo of song 9. -/
def songTempo9 : Nat := 180

/-- Title of song 10. -/
def songTitle10 : String := "Oh Susanna"

/-- Encoded data of song 10 (`songData10`). -/
def songData10 : List Nat := [
  6,c,1,d,1,e,2,g,2,g,2,a,2,g,2,e,2,c,3,d,1,e,2,e,2,d,2,c,2,d,6,c,
  1,d,1,e,2,g,2,g,3,a,1,g,2,e,2,c,3,d,1,e,2,e,2,d,2,d,2,c,6,c,1,d,
  1,e,2,g,2,g,3,a,1,g,2,e,2,c,3,d,1,e,2,e,2,d,2,c,2,d,6,c,1,d,1,e,
  2,g,2,g,2,a,2,g,2,e,2,c,3,d,1,e,2,e,2,d,2,d,2,c,8,f,4,f,4,a,c,2,
  a,4,a,2,g,2,g,2,e,2,c,2,d,6,c,1,d,1,e,2,g,2,g,2,a,2,g,2,e,2,c,3,
  d,1,e,2,e,2,d,2,d,2,c,0]

/-- Tempo of song 10. -/
def songTempo10 : Nat := 120

/-- Title of song 11. -/
def songTitle11 : String := "Over the River"

/-- Encoded data of song 11 (`songData11`). -/
def songData11 : List Nat := [
  e,g,2,e,g,2,e,g,2,e,g,2,c,e,2,d,f,2,e,g,4,e,g,2,e,g,4,e,g,2,f,C,
  4,f,C,2,f,b,4,f,a,2,e,g,10,e,g,2,f,4,f,2,f,4,f,2,c,e,4,c,e,2,c,e,
  4,c,e,2,c,d,4,c,d,2,c,d,4,c,e,2,d,6,d,g,6,e,g,2,e,g,2,e,g,2,e,g,
  2,c,e,2,d,f,2,e,g,4,e,g,2,e,g,4,e,g,2,f,C,2,f,C,2,f,C,2,f,b,4,f,
  a,2,e,g,10,e,g,2,c,C,4,c,C,2,c,b,4,c,a,2,c,g,4,c,e,2,c,4,d,2,c,e,
  4,f,2,e,4,d,2,c,0]

/-- Tempo of song 11. -/
def songTempo11 : Nat := 150

/-- The song catalog, assembling the 12 `songTitles`/`songData`/`songTempos`
entries in PROGMEM order. -/
def songs : List Song :=
  [⟨songTitle0, songData0, songTempo0⟩, ⟨songTitle1, songData1, songTempo1⟩,
   ⟨songTitle2, songData2, songTempo2⟩, ⟨songTitle3, songData3, songTempo3⟩,
   ⟨songTitle4, songData4, songTempo4⟩, ⟨songTitle5, songData5, songTempo5⟩,
   ⟨songTitle6, songData6, songTempo6⟩, ⟨songTitle7, songData7, songTempo7⟩,
   ⟨songTitle8, songData8, songTempo8⟩, ⟨songTitle9, songData9, songTempo9⟩,
   ⟨songTitle10, songData10, songTempo10⟩, ⟨songTitle11, songData11, songTempo11⟩]

/-- The 12 catalog tempos (`songTempos`). -/
def songTemposList : List Nat :=
  [songTempo0, songTempo1, songTempo2, songTempo3, songTempo4, songTempo5,
   songTempo6, songTempo7, songTempo8, songTempo9, songTempo10, songTempo11]

/-- Total tick count accumulated over the decoded prefix of a sequence when
playback is never cancelled: the sum of `pauseIterations` over its pause
bytes. -/
def pauseTicksTotal (tempo : Nat) (seq : List Nat) : Nat :=
  (((seq.takeWhile (fun x => decide (x ≠ 0 ∧ ¬ C < x))).filter
      (fun x => decide (x < c))).map (pauseIterations tempo)).sum

/-- Dispatch a rotary interrupt event: `true` selects `PinA`, `false`
selects `PinB`, with the given `PIND` reading. -/
def rotaryISR (ev : Bool × Nat) (st : RotaryState) : RotaryState :=
  if ev.1 then PinA ev.2 st else PinB ev.2 st

lemma pauseM_nil (n : Nat) : pauseM [] true n = ([], true, n) := by
  induction n with
  | zero => rfl
  | succ m ih => simp [pauseM, takeClick, ih]

lemma playLoop_no_cancel (tempo : Nat) :
    ∀ s : List Nat, (∃ x ∈ s, x = 0 ∨ C < x) →
      playLoop tempo s [] true = some (noteCommands s, pauseTicksTotal tempo s) := by
  intro s
  induction s with
  | nil => rintro ⟨x, hx, -⟩; exact absurd hx (List.not_mem_nil x)
  | cons y rest ih =>
    rintro ⟨x, hx, hcase⟩
    by_cases hy0 : y = 0
    · subst hy0
      simp [playLoop, processSongData, noteCommands, pauseTicksTotal]
    by_cases hyC : C < y
    · have hyC' : ¬ y ≤ C := by omega
      simp [playLoop, processSongData, noteCommands, pauseTicksTotal, hy0, hyC, hyC']
    have hxr : x ∈ rest := by
      rcases List.mem_cons.1 hx with h | h
      · subst h; rcases hcase with h0 | hC
        · exact absurd h0 hy0
        · exact absurd hC hyC
      · exact h
    have hrest := ih ⟨x, hxr, hcase⟩
    by_cases hyc : c ≤ y
    · cases hpn : playNote y with
      | some cmd =>
        simp [playLoop, processSongData, noteCommands, pauseTicksTotal,
              hy0, hyC, hyc, hpn, hrest, List.takeWhile_cons, List.filterMap_cons,
              not_lt.1 hyC, show ¬ y < c by omega]
      | none =>
        simp [playLoop, processSongData, noteCommands, pauseTicksTotal,
              hy0, hyC, hyc, hpn, hrest, List.takeWhile_cons, List.filterMap_cons,
              not_lt.1 hyC, show ¬ y < c by omega]
    · have hyc' : y < c := by omega
      simp [playLoop, processSongData, noteCommands, pauseTicksTotal,
            hy0, hyC, hyc, hrest, pauseM_nil, List.takeWhile_cons, List.filterMap_cons,
            not_lt.1 hyC, hyc']

/-- C1: for every song whose sequence reaches an end-of-song byte (in the
catalog, the terminator 0), `playSelectedSong` without cancellation
transmits exactly one command per valid note event of the sequence, in
sequence order, and terminates normally; in particular catalog index 0
("Scale", tempo 150) emits exactly 8 commands, one per channel 0–7, and
returns to the selection display with `songPlaying` cleared. -/
theorem playSelectedSong_transmits_notes_in_order :
    (∀ tempo s, (∃ x ∈ s, x = 0 ∨ C < x) →
       playSelectedSong tempo s [] =
         some ⟨noteCommands s, pauseTicksTotal tempo s, .selecting, false, false⟩) ∧
    playSelectedSong songTempo0 songData0 [] =
      some ⟨[⟨0, 1⟩, ⟨0, 2⟩, ⟨0, 4⟩, ⟨0, 8⟩, ⟨0, 16⟩, ⟨0, 32⟩, ⟨0, 64⟩, ⟨0, 128⟩],
            160, .selecting, false, false⟩ ∧
    (noteCommands songData0).length = 8 ∧
    songs[0]? = some ⟨"Scale", songData0, 150⟩ := by
  refine ⟨?_, by decide, by decide, by decide⟩
  intro tempo s h
  simp [playSelectedSong, playLoop_no_cancel tempo s h]

/-- Witness for C1 at the one-byte sequence `[0]`. -/
theorem playSelectedSong_transmits_notes_in_order_witness :
    playSelectedSong 150 [0] [] =
      some ⟨noteCommands [0], pauseTicksTotal 150 [0], .selecting, false, false⟩ :=
  playSelectedSong_transmits_notes_in_order.1 150 [0] ⟨0, by decide, Or.inl rfl⟩

set_option maxRecDepth 4096 in
/-- C2: the byte decoder is total over 0x00–0xFF and partitions it: bytes
0x01–0x7F decode to `pause` with that duration, 0x00 and every byte above
the highest note code 0x8C decode to `endOfSong`, and the remaining bytes
0x80–0x8C decode to `note`; every byte yields exactly one event kind. -/
theorem decode_total_partition (x : Nat) (hx : x < 256) :
    ((1 ≤ x ∧ x ≤ 0x7F) → decode x = .pause x) ∧
    (x = 0 → decode x = .endOfSong) ∧
    (C < x → decode x = .endOfSong) ∧
    ((c ≤ x ∧ x ≤ C) → decode x = .note x) := by
  revert hx; revert x; decide

/-- Witness for C2 at bytes 5, 0, 141 and 0x80. -/
theorem decode_total_partition_witness :
    decode 5 = .pause 5 ∧ decode 0 = .endOfSong ∧
    decode 141 = .endOfSong ∧ decode 0x80 = .note 0x80 :=
  ⟨(decode_total_partition 5 (by decide)).1 ⟨by decide, by decide⟩,
   (decode_total_partition 0 (by decide)).2.1 rfl,
   (decode_total_partition 141 (by decide)).2.2.1 (by decide),
   (decode_total_partition 0x80 (by decide)).2.2.2 ⟨by decide, by decide⟩⟩

/-- Counterexample to C3: a genuine clockwise detent event (reading
`B00001100` with `aFlag` set, which increments the count when the encoder
is enabled) leaves the selection state completely unchanged when it arrives
while `rotaryDisabled` is set — and `playSelectedSong` keeps
`rotaryDisabled` set for the whole playback, not only during display
updates.  The same event with the encoder enabled increments the count. -/
theorem pinA_during_playback_counterexample :
    PinA 12 ⟨0, false, true, true, false⟩ = ⟨0, false, true, true, false⟩ ∧
    (PinA 12 ⟨0, false, false, true, false⟩).rotaryCount = 1 ∧
    (PinA 12 ⟨0, false, false, true, false⟩).rotaryChanged = true := by
  decide

lemma rotaryISR_disabled (ev : Bool × Nat) (st : RotaryState)
    (h : st.rotaryDisabled = true) : rotaryISR ev st = st := by
  cases ev with
  | mk pin reading => cases pin <;> simp [rotaryISR, PinA, PinB, h]

/-- C3 (amended): rotation events that arrive while a song is playing are
dropped, not recorded: `playSelectedSong` holds `rotaryDisabled` for the
entire playback, and with that flag set every `PinA`/`PinB` interrupt
returns immediately, so any sequence of rotation events leaves the
selection state exactly as it was. -/
theorem rotation_during_playback_dropped (evs : List (Bool × Nat)) (st : RotaryState) :
    evs.foldl (fun s2 ev => rotaryISR ev s2) { st with rotaryDisabled := true } =
      { st with rotaryDisabled := true } := by
  induction evs with
  | nil => rfl
  | cons ev rest ih =>
    rw [List.foldl_cons, rotaryISR_disabled ev _ rfl, ih]

lemma pauseM_first_click (rest : List Bool) :
    ∀ j n, j < n →
      pauseM (List.replicate j false ++ true :: rest) true n = (rest, false, j + 1) := by
  intro j
  induction j with
  | zero =>
    intro n hn
    cases n with
    | zero => omega
    | succ m => simp [pauseM, takeClick]
  | succ k ih =>
    intro n hn
    cases n with
    | zero => omega
    | succ m =>
      have hkm : k < m := by omega
      simp [pauseM, takeClick, List.replicate_succ, List.cons_append, ih m hkm]

/-- C4: if the playback flag is cleared by a click during a pause's wait
loop, the loop exits within one polling interval — it executes exactly the
tick on which the click is observed and no further ticks — and afterwards
the very next `processSongData` step stops without transmitting any
command and without waiting any tick. -/
theorem pause_cancellation_prompt :
    (∀ j n rest, j < n →
       pauseM (List.replicate j false ++ true :: rest) true n = (rest, false, j + 1)) ∧
    (∀ tempo x rest clicks, playLoop tempo (x :: rest) clicks false = some ([], 0)) := by
  constructor
  · intro j n rest hj
    exact pauseM_first_click rest j n hj
  · intro tempo x rest clicks
    unfold playLoop processSongData
    split_ifs <;> simp_all

/-- Witness for C4: a click on the third tick of a five-tick pause stops it
after three ticks, and a subsequent step with the flag cleared processes
nothing. -/
theorem pause_cancellation_prompt_witness :
    pauseM (List.replicate 2 false ++ true :: []) true 5 = ([], false, 2 + 1) ∧
    playLoop 150 (128 :: [0]) [] false = some ([], 0) :=
  ⟨pause_cancellation_prompt.1 2 5 [] (by decide),
   pause_cancellation_prompt.2 150 128 [0] []⟩

/-- C5: the pause delay is exactly `duration * 120 * 125 / tempo / 20` in
truncating integer arithmetic for every catalog tempo and every pause
duration byte; in particular duration 16 at tempo 150 yields 80 ticks,
i.e. 1600 time units at 20 time units per tick. -/
theorem pause_delay_formula :
    (∀ tempo ∈ songTemposList, ∀ x, x < 128 →
       pauseDelayTicks tempo x = ((x * 120 * 125 / tempo / 20 : Nat) : Int)) ∧
    pauseDelayTicks 150 16 = 80 ∧
    pauseDelayTicks 150 16 * 20 = 1600 := by
  refine ⟨?_, by decide, by decide⟩
  decide

/-- Witness for C5 at duration 16, tempo 150. -/
theorem pause_delay_formula_witness :
    pauseDelayTicks 150 16 = ((16 * 120 * 125 / 150 / 20 : Nat) : Int) :=
  pause_delay_formula.1 150 (by decide) 16 (by decide)

/-- C6: each of the 8 defined note codes decodes to a note event, and
`noteToMotorShieldChannel` maps the 8 codes bijectively onto the channel
indices 0 through 7, in order c, d, e, f, g, a, b, C. -/
theorem note_channel_bijection :
    noteCodes.map noteToMotorShieldChannel = [0, 1, 2, 3, 4, 5, 6, 7] ∧
    noteCodes.Nodup ∧
    noteCodes.map decode = noteCodes.map SequenceEvent.note := by
  decide

lemma playLoop_cons_invalid_note (tempo x : Nat) (rest : List Nat)
    (clicks : List Bool) (h0 : x ≠ 0) (hC : ¬ C < x) (hc : c ≤ x)
    (hn : playNote x = none) :
    playLoop tempo (x :: rest) clicks true = playLoop tempo rest clicks true := by
  simp [playLoop, processSongData, h0, hC, hc, hn]

/-- C7: every byte in the note range 0x80–0x8C that is not one of the 8
defined note codes is mapped to the sentinel invalid channel 0x7F, causes
no transmission, still decodes as a note event rather than end-of-song,
and playback simply continues with the rest of the sequence. -/
theorem invalid_note_silently_skipped (x : Nat) (h1 : c ≤ x) (h2 : x ≤ C)
    (h3 : x ∉ noteCodes) :
    noteToMotorShieldChannel x = 0x7F ∧
    playNote x = none ∧
    decode x = .note x ∧
    (∀ tempo rest clicks, playLoop tempo (x :: rest) clicks true =
       playLoop tempo rest clicks true) := by
  have hvals : x = 0x81 ∨ x = 0x83 ∨ x = 0x86 ∨ x = 0x88 ∨ x = 0x8A := by
    simp [noteCodes, c, d, e, f, g, a, b, C] at h1 h2 h3
    omega
  have hch : noteToMotorShieldChannel x = 0x7F := by
    rcases hvals with h | h | h | h | h <;> subst h <;> decide
  have hpn : playNote x = none := by
    simp [playNote, hch]
  have hdec : decode x = .note x := by
    rcases hvals with h | h | h | h | h <;> subst h <;> decide
  refine ⟨hch, hpn, hdec, fun tempo rest clicks => ?_⟩
  have h0 : x ≠ 0 := by omega
  have hC' : ¬ C < x := by omega
  exact playLoop_cons_invalid_note tempo x rest clicks h0 hC' h1 hpn

/-- Witness for C7 at the unmapped note-range byte 0x81. -/
theorem invalid_note_silently_skipped_witness :
    noteToMotorShieldChannel 0x81 = 0x7F ∧ playNote 0x81 = none ∧
    playLoop 150 (0x81 :: [0]) [] true = playLoop 150 [0] [] true := by
  have h := invalid_note_silently_skipped 0x81 (by decide) (by decide) (by decide)
  exact ⟨h.1, h.2.1, h.2.2.2 150 [0] []⟩

/-- C8: the rotation handlers clamp the selection index rather than wrap
it: `rotaryUp` yields `min (count + 1) rotaryMax` and `rotaryDown` yields
`max (count - 1) 0`, so a count already inside `[0, SONG_COUNT - 1]` stays
inside after either operation — incrementing at the last index stays at
the last index and decrementing at 0 stays at 0. -/
theorem rotary_selection_clamped (st : RotaryState) :
    (rotaryUp st).rotaryCount = min (st.rotaryCount + 1) rotaryMax ∧
    (rotaryDown st).rotaryCount = max (st.rotaryCount - 1) 0 ∧
    (0 ≤ st.rotaryCount → st.rotaryCount ≤ rotaryMax →
       0 ≤ (rotaryUp st).rotaryCount ∧ (rotaryUp st).rotaryCount ≤ rotaryMax ∧
       0 ≤ (rotaryDown st).rotaryCount ∧ (rotaryDown st).rotaryCount ≤ rotaryMax) := by
  simp only [rotaryUp, rotaryDown, rotaryMax, SONG_COUNT]
  norm_num
  split_ifs <;>
    exact ⟨by omega, by omega, fun hl hr => ⟨by omega, by omega, by omega, by omega⟩⟩

/-- Witness for C8 at the two boundary states: index 11 (last song) for
increment and index 0 for decrement. -/
theorem rotary_selection_clamped_witness :
    (rotaryUp ⟨11, false, false, false, false⟩).rotaryCount = 11 ∧
    (rotaryDown ⟨0, false, false, false, false⟩).rotaryCount = 0 := by
  have hu := (rotary_selection_clamped ⟨11, false, false, false, false⟩).1
  have hd := (rotary_selection_clamped ⟨0, false, false, false, false⟩).2.1
  refine ⟨hu.trans ?_, hd.trans ?_⟩ <;> decide

lemma playLoop_isSome_of_zero_mem (tempo : Nat) :
    ∀ s : List Nat, 0 ∈ s → ∀ clicks playing,
      (playLoop tempo s clicks playing).isSome = true := by
  intro s
  induction s with
  | nil => intro h; exact absurd h (List.not_mem_nil 0)
  | cons y rest ih =>
    intro hmem clicks playing
    by_cases hy : y = 0
    · subst hy
      simp [playLoop, processSongData]
    · have hr : 0 ∈ rest := by
        rcases List.mem_cons.1 hmem with h | h
        · exact absurd h.symm hy
        · exact h
      by_cases hk : (processSongData tempo y clicks playing).keepGoing
      · simp [playLoop, hk, Option.isSome_map,
              ih hr (processSongData tempo y clicks playing).clicks
                    (processSongData tempo y clicks playing).songPlaying]
      · simp [playLoop, hk]

/-- C9: the playback engine terminates on every song of the fixed catalog,
for every click schedule and every initial playback flag: the decode loop
always stops inside the sequence (at the terminator byte 0 that every
catalog sequence contains, at any byte above the note range, or on
cancellation) and never runs off the end. -/
theorem playback_always_terminates :
    ∀ song ∈ songs, ∀ clicks playing,
      (playLoop song.tempo song.data clicks playing).isSome = true := by
  have hz : ∀ song ∈ songs, 0 ∈ song.data := by decide
  intro song hs clicks playing
  exact playLoop_isSome_of_zero_mem song.tempo song.data (hz song hs) clicks playing

/-- Witness for C9 on catalog song 0 with no clicks. -/
theorem playback_always_terminates_witness :
    (playLoop (Song.mk "Scale" songData0 150).tempo
       (Song.mk "Scale" songData0 150).data [] true).isSome = true :=
  playback_always_terminates ⟨"Scale", songData0, 150⟩ (by decide) [] true

lemma playNote_command_shape (x : Nat) (cmd : Command) (h : playNote x = some cmd) :
    cmd.boardNum = slaveAddr ∧
    cmd.pdata ∈ [0, 1, 2, 3, 4, 5, 6, 7].map (fun ch => 1 <<< ch) := by
  unfold playNote at h
  by_cases hch : noteToMotorShieldChannel x ≤ 7
  · simp only [hch, if_pos, Option.some.injEq] at h
    subst h
    have h128 : 1 <<< noteToMotorShieldChannel x < 256 := by
      calc 1 <<< noteToMotorShieldChannel x = 2 ^ noteToMotorShieldChannel x := by
            simp [Nat.shiftLeft_eq]
        _ ≤ 2 ^ 7 := Nat.pow_le_pow_right (by norm_num) hch
        _ < 256 := by norm_num
    refine ⟨rfl, ?_⟩
    simp only [Nat.mod_eq_of_lt h128]
    interval_cases h : noteToMotorShieldChannel x <;> decide
  · simp [hch] at h

lemma processSongData_emitted (tempo dataVal : Nat) (clicks : List Bool)
    (playing : Bool) :
    (processSongData tempo dataVal clicks playing).emitted = none ∨
    (processSongData tempo dataVal clicks playing).emitted = playNote dataVal := by
  unfold processSongData
  split_ifs <;> simp

lemma playLoop_trace_shape (tempo : Nat) :
    ∀ (s : List Nat) (clicks : List Bool) (playing : Bool)
      (tr : List Command) (tk : Nat),
      playLoop tempo s clicks playing = some (tr, tk) →
      ∀ cmd ∈ tr, cmd.boardNum = slaveAddr ∧
        cmd.pdata ∈ [0, 1, 2, 3, 4, 5, 6, 7].map (fun ch => 1 <<< ch) := by
  intro s
  induction s with
  | nil => intro clicks playing tr tk h; exact absurd h (by simp [playLoop])
  | cons y rest ih =>
    intro clicks playing tr tk h cmd hcmd
    by_cases hk : (processSongData tempo y clicks playing).keepGoing
    · rw [playLoop, if_pos hk] at h
      rcases Option.map_eq_some'.1 h with ⟨⟨tr', tk'⟩, hq, heq⟩
      have htr : tr = (processSongData tempo y clicks playing).emitted.toList ++ tr' := by
        have := congrArg Prod.fst heq
        simpa using this.symm
      rw [htr] at hcmd
      rcases List.mem_append.1 hcmd with hleft | hright
      · rcases processSongData_emitted tempo y clicks playing with hnone | hpn
        · rw [hnone] at hleft; exact absurd hleft (by simp)
        · rw [hpn] at hleft
          cases hsome : playNote y with
          | none => rw [hsome] at hleft; exact absurd hleft (by simp)
          | some cmd2 =>
            rw [hsome] at hleft
            simp only [Option.toList_some, List.mem_singleton] at hleft
            subst hleft
            exact playNote_command_shape y cmd hsome
      · exact ih (processSongData tempo y clicks playing).clicks
          (processSongData tempo y clicks playing).songPlaying tr' tk' hq cmd hright
    · rw [playLoop, if_neg hk] at h
      have hpair := Option.some_inj.mp h
      have : tr = [] := (congrArg Prod.fst hpair).symm
      subst this
      exact absurd hcmd (by simp)

/-- C10: every command the playback loop ever transmits carries the slave
device address 0 and a channel bitmask with exactly one bit set — the mask
is 1 shifted left by a channel index between 0 and 7 — for every sequence,
click schedule and starting flag. -/
theorem transmitted_commands_single_bit (tempo : Nat) (s : List Nat)
    (clicks : List Bool) (playing : Bool) (tr : List Command) (tk : Nat)
    (h : playLoop tempo s clicks playing = some (tr, tk)) :
    ∀ cmd ∈ tr, cmd.boardNum = slaveAddr ∧
      cmd.pdata ∈ [0, 1, 2, 3, 4, 5, 6, 7].map (fun ch => 1 <<< ch) :=
  playLoop_trace_shape tempo s clicks playing tr tk h

/-- Witness for C10: the first command of the Scale playback has address 0
and mask `1 <<< 0`. -/
theorem transmitted_commands_single_bit_witness :
    (Command.mk 0 1).boardNum = slaveAddr ∧
    (Command.mk 0 1).pdata ∈ [0, 1, 2, 3, 4, 5, 6, 7].map (fun ch => 1 <<< ch) :=
  transmitted_commands_single_bit 150 songData0 [] true
    [⟨0, 1⟩, ⟨0, 2⟩, ⟨0, 4⟩, ⟨0, 8⟩, ⟨0, 16⟩, ⟨0, 32⟩, ⟨0, 64⟩, ⟨0, 128⟩] 160
    (by decide) ⟨0, 1⟩ (by decide)

end MusicLab
